import Mathlib

/-!
Shallow embedding of `fleet_adapter_template/RobotClientAPI.py`.

The Python file defines a single class `RobotAPI`: a façade over a robot's
HTTP API. Each method issues at most one blocking HTTP request and converts
every transport failure (exception, timeout, non-success status, malformed
body) into a sentinel return value.

The embedding models the HTTP layer as a function `World : Request → HttpOutcome`
describing how the remote server answers each request. `HttpOutcome.exn`
stands for any exception raised while issuing the request (timeout,
connection refused, ...); `HttpOutcome.response s b` is a completed response
with status code `s` and body `b`, where `b = none` means the body is not
valid JSON (so `response.json()` raises). JSON numbers are modelled as
rationals. Each method returns its result, the (unchanged) instance state,
and the list of requests it issued, in program order.
-/

set_option autoImplicit false

namespace FleetAdapter

/-- JSON values, with numbers as rationals. -/
inductive Json where
  | null : Json
  | bool : Bool → Json
  | num : Rat → Json
  | str : String → Json
  | arr : List Json → Json
  | obj : List (String × Json) → Json

/-- Python dictionary access `j[k]`: `some v` when `j` is an object with key
`k` bound to `v`, `none` otherwise (a `KeyError`/`TypeError` in Python). -/
def Json.getKey : Json → String → Option Json
  | .obj fields, k => fields.lookup k
  | _, _ => none

/-- HTTP method of a request. -/
inductive Method where
  | get : Method
  | post : Method
deriving DecidableEq

/-- One HTTP request: method, full URL, and optional JSON payload. -/
structure Request where
  method : Method
  url : String
  jsonBody : Option Json

/-- What the transport layer yields for one issued request: either an
exception (`exn`: timeout, connection refused, ...) or a completed response
with a status code and a body; `none` as body means `response.json()` would
raise (malformed body). -/
inductive HttpOutcome where
  | exn : HttpOutcome
  | response : Nat → Option Json → HttpOutcome

/-- An outcome is a transport-level failure when it is an exception or a
non-success (≠ 200) status. -/
def HttpOutcome.isFailure : HttpOutcome → Bool
  | .exn => true
  | .response s _ => decide (s ≠ 200)

/-- The environment: how the server answers each request. -/
def World : Type := Request → HttpOutcome

/-- The state of a `RobotAPI` instance: endpoint configuration plus the
connection flag set by the constructor. `apiPrefix` embeds the Python
attribute named after the base address (that Python name is a Lean keyword). -/
structure RobotAPI where
  apiPrefix : String
  user : String
  password : String
  connected : Bool

/-- The GET request issued by `check_connection`. -/
def RobotAPI.healthRequest (api : RobotAPI) : Request :=
  ⟨.get, api.apiPrefix ++ "/health", none⟩

/-- The GET request issued by `position`. -/
def RobotAPI.positionRequest (api : RobotAPI) : Request :=
  ⟨.get, api.apiPrefix ++ "/current_position", none⟩

/-- The POST request issued by `navigate` for a pose whose first three
elements are `x`, `y`, `theta`. -/
def RobotAPI.navigateRequest (api : RobotAPI) (x y theta : Rat) : Request :=
  ⟨.post, api.apiPrefix ++ "/navigate",
    some (.obj [("x", .num x), ("y", .num y), ("theta", .num theta)])⟩

/-- The POST request issued by `stop`. -/
def RobotAPI.stopRequest (api : RobotAPI) : Request :=
  ⟨.post, api.apiPrefix ++ "/stop_nav", some (.obj [("bool", .bool true)])⟩

/-- The GET request issued by `navigation_remaining_duration`. -/
def RobotAPI.durationRequest (api : RobotAPI) : Request :=
  ⟨.get, api.apiPrefix ++ "/nav_remaining_duration", none⟩

/-- The GET request issued by `navigation_completed`. -/
def RobotAPI.navStatRequest (api : RobotAPI) : Request :=
  ⟨.get, api.apiPrefix ++ "/nav_stat", none⟩

/-- The GET request issued by `battery_soc`. -/
def RobotAPI.socRequest (api : RobotAPI) : Request :=
  ⟨.get, api.apiPrefix ++ "/soc", none⟩

/-- `RobotAPI.check_connection`: GET `/health`; `true` iff the request
completes with status 200, `false` on any other status or exception.
The method issues exactly one request and never writes to the instance. -/
def RobotAPI.check_connection (api : RobotAPI) (w : World) :
    Bool × RobotAPI × List Request :=
  let req := api.healthRequest
  let result : Bool :=
    match w req with
    | .response s _ => if s = 200 then true else false
    | .exn => false
  (result, api, [req])

/-- `RobotAPI.__init__`: stores the configuration, sets `connected := False`,
probes connectivity once via `check_connection`, and sets `connected := True`
exactly when the probe succeeded. Returns the constructed instance and the
requests issued during construction. -/
def RobotAPI.init (apiPrefix user password : String) (w : World) :
    RobotAPI × List Request :=
  let api0 : RobotAPI := ⟨apiPrefix, user, password, false⟩
  let r := api0.check_connection w
  (⟨apiPrefix, user, password, r.1⟩, r.2.2)

/-- `RobotAPI.position`: GET `/current_position`; on a 200 response with a
JSON body, returns `body["position"]` (or `none` if the key access raises);
on a malformed body, non-200 status or exception, returns `none`. -/
def RobotAPI.position (api : RobotAPI) (robot_name : String) (w : World) :
    Option Json × RobotAPI × List Request :=
  let req := api.positionRequest
  let result : Option Json :=
    match w req with
    | .response s b =>
      if s = 200 then
        match b with
        | some j => j.getKey "position"
        | none => none
      else none
    | .exn => none
  (result, api, [req])

/-- `RobotAPI.navigate`: builds the payload from `pose[0]`, `pose[1]`,
`pose[2]` before the `try` block, so a pose with fewer than three elements
raises an `IndexError` that escapes the method (modelled as `none`);
otherwise POSTs `/navigate` and returns `true` iff the status is 200. -/
def RobotAPI.navigate (api : RobotAPI) (robot_name : String) (pose : List Rat)
    (map_name : String) (w : World) : Option (Bool × RobotAPI × List Request) :=
  match pose with
  | x :: y :: theta :: _ =>
    let req := api.navigateRequest x y theta
    let result : Bool :=
      match w req with
      | .response s _ => if s = 200 then true else false
      | .exn => false
    some (result, api, [req])
  | _ => none

/-- `RobotAPI.start_process`: a pure stub: prints and returns `True`,
issuing no HTTP request at all. -/
def RobotAPI.start_process (api : RobotAPI) (robot_name process map_name : String)
    (w : World) : Bool × RobotAPI × List Request :=
  (true, api, [])

/-- `RobotAPI.stop`: POST `/stop_nav` with payload `bool = true`; returns
`true` iff the status is 200, `false` on any other status or exception. -/
def RobotAPI.stop (api : RobotAPI) (robot_name : String) (w : World) :
    Bool × RobotAPI × List Request :=
  let req := api.stopRequest
  let result : Bool :=
    match w req with
    | .response s _ => if s = 200 then true else false
    | .exn => false
  (result, api, [req])

/-- `RobotAPI.navigation_remaining_duration`: GET `/nav_remaining_duration`;
on a 200 response with a JSON body, returns `body["duration"]` (sentinel
`0.0` if the key access raises); on a malformed body, non-200 status or
exception, returns the sentinel `0.0`. -/
def RobotAPI.navigation_remaining_duration (api : RobotAPI) (robot_name : String)
    (w : World) : Json × RobotAPI × List Request :=
  let req := api.durationRequest
  let result : Json :=
    match w req with
    | .response s b =>
      if s = 200 then
        match b with
        | some j =>
          match j.getKey "duration" with
          | some v => v
          | none => .num 0
        | none => .num 0
      else .num 0
    | .exn => .num 0
  (result, api, [req])

/-- `RobotAPI.navigation_completed`: GET `/nav_stat`; returns `true` iff the
status is 200, `false` on any other status or exception. -/
def RobotAPI.navigation_completed (api : RobotAPI) (robot_name : String)
    (w : World) : Bool × RobotAPI × List Request :=
  let req := api.navStatRequest
  let result : Bool :=
    match w req with
    | .response s _ => if s = 200 then true else false
    | .exn => false
  (result, api, [req])

/-- `RobotAPI.process_completed`: a pure stub: prints and returns `True`,
issuing no HTTP request at all. -/
def RobotAPI.process_completed (api : RobotAPI) (robot_name : String)
    (w : World) : Bool × RobotAPI × List Request :=
  (true, api, [])

/-- `RobotAPI.battery_soc`: GET `/soc`; on a 200 response with a JSON body,
returns `body["soc"]` (sentinel `0.0` if the key access raises); on a
malformed body, non-200 status or exception, returns the sentinel `0.0`. -/
def RobotAPI.battery_soc (api : RobotAPI) (robot_name : String) (w : World) :
    Json × RobotAPI × List Request :=
  let req := api.socRequest
  let result : Json :=
    match w req with
    | .response s b =>
      if s = 200 then
        match b with
        | some j =>
          match j.getKey "soc" with
          | some v => v
          | none => .num 0
        | none => .num 0
      else .num 0
    | .exn => .num 0
  (result, api, [req])

/-- A JSON value that is a number lying in the closed interval [0, 1]
(a battery fraction as the spec describes it). -/
def Json.inUnitInterval : Json → Prop
  | .num q => 0 ≤ q ∧ q ≤ 1
  | _ => False

/-- A JSON value that is a non-negative number. -/
def Json.isNonnegNum : Json → Prop
  | .num q => 0 ≤ q
  | _ => False

/-! ### Concrete fixtures used to evaluate the operations on sample servers -/

/-- A sample instance with an already-set connection flag. -/
def sampleAPI : RobotAPI := ⟨"http://robot", "user", "secret", true⟩

/-- A server that fails every request with a transport exception
(e.g. connection refused). -/
def failedWorld : World := fun _ => .exn

/-- A server that answers every request with status 200 and an empty
JSON object body. -/
def okWorld : World := fun _ => .response 200 (some (.obj []))

/-- A server whose `/soc` style answer carries a state of charge of 3/4. -/
def socWorld : World := fun _ => .response 200 (some (.obj [("soc", .num (3/4))]))

/-- A server reporting a state of charge of 2: a well-formed 200 response
whose value lies outside the unit interval. -/
def socOverWorld : World := fun _ => .response 200 (some (.obj [("soc", .num 2)]))

/-- A server reporting a remaining navigation duration of -5 seconds: a
well-formed 200 response with a negative value. -/
def negDurationWorld : World :=
  fun _ => .response 200 (some (.obj [("duration", .num (-5))]))

/-- A server whose `/current_position` style answer carries the pose
[1, 2, 1/2]. -/
def poseWorld : World :=
  fun _ => .response 200 (some (.obj [("position",
    .arr [.num 1, .num 2, .num (1/2)])]))

/-- A server answering a well-formed remaining duration of 42 seconds. -/
def durationWorld : World :=
  fun _ => .response 200 (some (.obj [("duration", .num 42)]))

/-! ### Claims -/

/-- A failing outcome is an exception or a response with a non-200 status. -/
theorem isFailure_elim {o : HttpOutcome} (h : o.isFailure = true) :
    o = .exn ∨ ∃ s b, o = .response s b ∧ s ≠ 200 := by
  cases o with
  | exn => exact Or.inl rfl
  | response s b =>
    right
    refine ⟨s, b, rfl, ?_⟩
    simpa [HttpOutcome.isFailure] using h

/-- C1: whenever the server fails every request at the transport level
(exception, timeout, or non-success status), every operation returns exactly
its documented failure sentinel — `false` for `check_connection`, `navigate`,
`stop`, `navigation_completed`; `none` for `position`; `0.0` for
`navigation_remaining_duration` and `battery_soc` — and no exception escapes
(each operation is a total function; `navigate` on a well-formed pose
returns a value). `start_process` and `process_completed` issue no request,
so no transport failure can occur inside them. -/
theorem transport_failures_yield_sentinels (api : RobotAPI) (r p m : String)
    (x y theta : Rat) (rest : List Rat) (w : World)
    (hw : ∀ q, (w q).isFailure = true) :
    (api.check_connection w).1 = false ∧
    (api.position r w).1 = none ∧
    api.navigate r (x :: y :: theta :: rest) m w =
      some (false, api, [api.navigateRequest x y theta]) ∧
    (api.stop r w).1 = false ∧
    (api.navigation_remaining_duration r w).1 = .num 0 ∧
    (api.navigation_completed r w).1 = false ∧
    (api.battery_soc r w).1 = .num 0 ∧
    (api.start_process r p m w).2.2 = [] ∧
    (api.process_completed r w).2.2 = [] := by
  refine ⟨?_, ?_, ?_, ?_, ?_, ?_, ?_, rfl, rfl⟩
  · rcases isFailure_elim (hw api.healthRequest) with h | ⟨s, b, h, hs⟩
    · simp [RobotAPI.check_connection, h]
    · simp [RobotAPI.check_connection, h, hs]
  · rcases isFailure_elim (hw api.positionRequest) with h | ⟨s, b, h, hs⟩
    · simp [RobotAPI.position, h]
    · simp [RobotAPI.position, h, hs]
  · rcases isFailure_elim (hw (api.navigateRequest x y theta)) with h | ⟨s, b, h, hs⟩
    · simp [RobotAPI.navigate, h]
    · simp [RobotAPI.navigate, h, hs]
  · rcases isFailure_elim (hw api.stopRequest) with h | ⟨s, b, h, hs⟩
    · simp [RobotAPI.stop, h]
    · simp [RobotAPI.stop, h, hs]
  · rcases isFailure_elim (hw api.durationRequest) with h | ⟨s, b, h, hs⟩
    · simp [RobotAPI.navigation_remaining_duration, h]
    · simp [RobotAPI.navigation_remaining_duration, h, hs]
  · rcases isFailure_elim (hw api.navStatRequest) with h | ⟨s, b, h, hs⟩
    · simp [RobotAPI.navigation_completed, h]
    · simp [RobotAPI.navigation_completed, h, hs]
  · rcases isFailure_elim (hw api.socRequest) with h | ⟨s, b, h, hs⟩
    · simp [RobotAPI.battery_soc, h]
    · simp [RobotAPI.battery_soc, h, hs]

/-- Witness for C1: against a server refusing every connection, every
operation of the sample instance yields its sentinel. -/
theorem transport_failures_yield_sentinels_witness :
    (sampleAPI.check_connection failedWorld).1 = false ∧
    (sampleAPI.position "robot1" failedWorld).1 = none ∧
    sampleAPI.navigate "robot1" (1 :: 2 :: 3 :: []) "L1" failedWorld =
      some (false, sampleAPI, [sampleAPI.navigateRequest 1 2 3]) ∧
    (sampleAPI.stop "robot1" failedWorld).1 = false ∧
    (sampleAPI.navigation_remaining_duration "robot1" failedWorld).1 = .num 0 ∧
    (sampleAPI.navigation_completed "robot1" failedWorld).1 = false ∧
    (sampleAPI.battery_soc "robot1" failedWorld).1 = .num 0 ∧
    (sampleAPI.start_process "robot1" "clean" "L1" failedWorld).2.2 = [] ∧
    (sampleAPI.process_completed "robot1" failedWorld).2.2 = [] :=
  transport_failures_yield_sentinels sampleAPI "robot1" "clean" "L1"
    1 2 3 [] failedWorld (fun _ => rfl)

/-- C4: `position` round-trips the server's pose: its result is `some v`
exactly when the GET to `/current_position` answered 200 with a JSON body
binding "position" to `v`; on a non-200 status, an exception, a malformed
body or a missing "position" key it returns `none`; it issues exactly one
GET to `/current_position`. -/
theorem position_roundtrip (api : RobotAPI) (r : String) (w : World) (v : Json) :
    ((api.position r w).1 = some v ↔
      ∃ body, w api.positionRequest = .response 200 (some body) ∧
        body.getKey "position" = some v) ∧
    ((w api.positionRequest).isFailure = true → (api.position r w).1 = none) ∧
    (w api.positionRequest = .response 200 none → (api.position r w).1 = none) ∧
    (∀ body, w api.positionRequest = .response 200 (some body) →
      body.getKey "position" = none → (api.position r w).1 = none) ∧
    (api.position r w).2.2 = [api.positionRequest] ∧
    api.positionRequest = ⟨.get, api.apiPrefix ++ "/current_position", none⟩ := by
  refine ⟨?_, ?_, ?_, ?_, rfl, rfl⟩
  · cases h : w api.positionRequest with
    | exn => simp [RobotAPI.position, h]
    | response s b =>
      by_cases hs : s = 200
      · subst hs
        cases b with
        | none => simp [RobotAPI.position, h]
        | some j => simp [RobotAPI.position, h]
      · simp [RobotAPI.position, h, hs]
  · intro hfail
    rcases isFailure_elim hfail with h | ⟨s, b, h, hs⟩
    · simp [RobotAPI.position, h]
    · simp [RobotAPI.position, h, hs]
  · intro h
    simp [RobotAPI.position, h]
  · intro body h hk
    simp [RobotAPI.position, h, hk]

/-- Witness for C4: on a server answering the pose [1, 2, 1/2], `position`
returns exactly that list; on a refused connection it returns `none`. -/
theorem position_roundtrip_witness :
    (sampleAPI.position "robot1" poseWorld).1 =
      some (.arr [.num 1, .num 2, .num (1/2)]) ∧
    (sampleAPI.position "robot1" failedWorld).1 = none :=
  ⟨((position_roundtrip sampleAPI "robot1" poseWorld
        (.arr [.num 1, .num 2, .num (1/2)])).1).mpr
      ⟨.obj [("position", .arr [.num 1, .num 2, .num (1/2)])], rfl, rfl⟩,
   (position_roundtrip sampleAPI "robot1" failedWorld Json.null).2.1 rfl⟩

/-- Counterexample to C6 as stated: a well-formed 200 response with body
binding "soc" to 2 makes `battery_soc` return 2, which is not a fraction in
the unit interval — the code forwards the server's value unvalidated. -/
theorem battery_soc_exceeds_unit_interval :
    (sampleAPI.battery_soc "robot1" socOverWorld).1 = .num 2 ∧
    ¬ Json.inUnitInterval (sampleAPI.battery_soc "robot1" socOverWorld).1 := by
  refine ⟨rfl, fun hmem => ?_⟩
  have e : (sampleAPI.battery_soc "robot1" socOverWorld).1 = .num 2 := rfl
  rw [e] at hmem
  have h2 : (0 : ℚ) ≤ 2 ∧ (2 : ℚ) ≤ 1 := hmem
  exact absurd h2.2 (by norm_num)

/-- C6 (amended): `battery_soc` returns exactly the value bound to "soc" in
the body of a 200 response — in particular 3/4 for a body binding "soc" to
3/4 — and returns the sentinel `0.0` on a non-200 status, an exception, a
malformed body or a missing "soc" key; it issues exactly one GET to `/soc`. -/
theorem battery_soc_passthrough (api : RobotAPI) (r : String) (w : World) :
    (∀ body v, w api.socRequest = .response 200 (some body) →
      body.getKey "soc" = some v → (api.battery_soc r w).1 = v) ∧
    (∀ s b, w api.socRequest = .response s b → s ≠ 200 →
      (api.battery_soc r w).1 = .num 0) ∧
    (w api.socRequest = .exn → (api.battery_soc r w).1 = .num 0) ∧
    (∀ body, w api.socRequest = .response 200 (some body) →
      body.getKey "soc" = none → (api.battery_soc r w).1 = .num 0) ∧
    (w api.socRequest = .response 200 none → (api.battery_soc r w).1 = .num 0) ∧
    (api.battery_soc r w).2.2 = [api.socRequest] := by
  refine ⟨?_, ?_, ?_, ?_, ?_, rfl⟩
  · intro body v h hk
    simp [RobotAPI.battery_soc, h, hk]
  · intro s b h hs
    simp [RobotAPI.battery_soc, h, hs]
  · intro h
    simp [RobotAPI.battery_soc, h]
  · intro body h hk
    simp [RobotAPI.battery_soc, h, hk]
  · intro h
    simp [RobotAPI.battery_soc, h]

/-- Witness for C6 (amended): a server reporting a state of charge of 3/4
yields exactly 3/4; a refused connection yields the sentinel. -/
theorem battery_soc_passthrough_witness :
    (sampleAPI.battery_soc "robot1" socWorld).1 = .num (3/4) ∧
    (sampleAPI.battery_soc "robot1" failedWorld).1 = .num 0 :=
  ⟨(battery_soc_passthrough sampleAPI "robot1" socWorld).1
      (.obj [("soc", .num (3/4))]) (.num (3/4)) rfl rfl,
   (battery_soc_passthrough sampleAPI "robot1" failedWorld).2.2.1 rfl⟩

/-- Counterexample to C7 as stated: a well-formed 200 response with body
binding "duration" to -5 makes `navigation_remaining_duration` return -5,
a negative value — the code forwards the server's value unvalidated. -/
theorem navigation_remaining_duration_negative :
    (sampleAPI.navigation_remaining_duration "robot1" negDurationWorld).1 =
      .num (-5) ∧
    ¬ Json.isNonnegNum
      (sampleAPI.navigation_remaining_duration "robot1" negDurationWorld).1 := by
  refine ⟨rfl, fun hmem => ?_⟩
  have e : (sampleAPI.navigation_remaining_duration "robot1" negDurationWorld).1 =
      .num (-5) := rfl
  rw [e] at hmem
  have h2 : (0 : ℚ) ≤ -5 := hmem
  exact absurd h2 (by norm_num)

/-- C7 (amended): `navigation_remaining_duration` returns exactly the value
bound to "duration" in the body of a 200 response, and returns the sentinel
`0.0` on a non-200 status, an exception, a malformed body or a missing
"duration" key; it issues exactly one GET to `/nav_remaining_duration`. -/
theorem navigation_remaining_duration_passthrough (api : RobotAPI) (r : String)
    (w : World) :
    (∀ body v, w api.durationRequest = .response 200 (some body) →
      body.getKey "duration" = some v →
      (api.navigation_remaining_duration r w).1 = v) ∧
    (∀ s b, w api.durationRequest = .response s b → s ≠ 200 →
      (api.navigation_remaining_duration r w).1 = .num 0) ∧
    (w api.durationRequest = .exn →
      (api.navigation_remaining_duration r w).1 = .num 0) ∧
    (∀ body, w api.durationRequest = .response 200 (some body) →
      body.getKey "duration" = none →
      (api.navigation_remaining_duration r w).1 = .num 0) ∧
    (w api.durationRequest = .response 200 none →
      (api.navigation_remaining_duration r w).1 = .num 0) ∧
    (api.navigation_remaining_duration r w).2.2 = [api.durationRequest] := by
  refine ⟨?_, ?_, ?_, ?_, ?_, rfl⟩
  · intro body v h hk
    simp [RobotAPI.navigation_remaining_duration, h, hk]
  · intro s b h hs
    simp [RobotAPI.navigation_remaining_duration, h, hs]
  · intro h
    simp [RobotAPI.navigation_remaining_duration, h]
  · intro body h hk
    simp [RobotAPI.navigation_remaining_duration, h, hk]
  · intro h
    simp [RobotAPI.navigation_remaining_duration, h]

/-- Witness for C7 (amended): a server reporting 42 remaining seconds yields
exactly 42; a refused connection yields the sentinel. -/
theorem navigation_remaining_duration_passthrough_witness :
    (sampleAPI.navigation_remaining_duration "robot1" durationWorld).1 =
      .num 42 ∧
    (sampleAPI.navigation_remaining_duration "robot1" failedWorld).1 = .num 0 :=
  ⟨(navigation_remaining_duration_passthrough sampleAPI "robot1" durationWorld).1
      (.obj [("duration", .num 42)]) (.num 42) rfl rfl,
   (navigation_remaining_duration_passthrough sampleAPI "robot1"
      failedWorld).2.2.1 rfl⟩

/-- C2: Constructing a `RobotAPI` is total (the embedding is a total
function, so construction never raises); the `connected` flag afterwards is
`true` exactly when the liveness probe to `/health` completed with status
200 — in particular it is `false` whenever the base address is unreachable —
and the configuration fields hold the constructor arguments. -/
theorem init_totality_and_connected_flag (p u pw : String) (w : World) :
    ((RobotAPI.init p u pw w).1.connected = true ↔
      ∃ b, w (RobotAPI.healthRequest ⟨p, u, pw, false⟩) = .response 200 b) ∧
    (RobotAPI.init p u pw w).1.apiPrefix = p ∧
    (RobotAPI.init p u pw w).1.user = u ∧
    (RobotAPI.init p u pw w).1.password = pw := by
  refine ⟨?_, rfl, rfl, rfl⟩
  cases h : w (RobotAPI.healthRequest ⟨p, u, pw, false⟩) with
  | exn =>
    simp [RobotAPI.init, RobotAPI.check_connection, h]
  | response s b =>
    by_cases hs : s = 200
    · subst hs
      simp [RobotAPI.init, RobotAPI.check_connection, h]
    · simp [RobotAPI.init, RobotAPI.check_connection, h, hs]

/-- C3: `check_connection` returns `true` iff the GET request to `/health`
under the configured base address completes with status 200; it issues
exactly that one request. -/
theorem check_connection_iff_health_200 (api : RobotAPI) (w : World) :
    ((api.check_connection w).1 = true ↔
      ∃ b, w api.healthRequest = .response 200 b) ∧
    (api.check_connection w).2.2 = [api.healthRequest] ∧
    api.healthRequest = ⟨.get, api.apiPrefix ++ "/health", none⟩ := by
  refine ⟨?_, rfl, rfl⟩
  cases h : w api.healthRequest with
  | exn => simp [RobotAPI.check_connection, h]
  | response s b =>
    by_cases hs : s = 200
    · subst hs
      simp [RobotAPI.check_connection, h]
    · simp [RobotAPI.check_connection, h, hs]

/-- C5: for every three-element pose [x, y, theta], `navigate` issues
exactly one POST to `/navigate` whose JSON body binds "x", "y", "theta" to
the pose components, and returns `true` exactly when the response status is
200, `false` otherwise. -/
theorem navigate_single_post_and_status (api : RobotAPI) (r m : String)
    (x y theta : Rat) (w : World) :
    (∃ res, api.navigate r [x, y, theta] m w =
        some (res, api, [api.navigateRequest x y theta]) ∧
      (res = true ↔ ∃ b, w (api.navigateRequest x y theta) = .response 200 b)) ∧
    api.navigateRequest x y theta = ⟨.post, api.apiPrefix ++ "/navigate",
      some (.obj [("x", .num x), ("y", .num y), ("theta", .num theta)])⟩ := by
  refine ⟨⟨_, rfl, ?_⟩, rfl⟩
  cases h : w (api.navigateRequest x y theta) with
  | exn => simp [h]
  | response s b =>
    by_cases hs : s = 200
    · subst hs
      simp [h]
    · simp [h, hs]

/-- C8: `start_process` and `process_completed` issue no HTTP request at
all and return `true` unconditionally, for every robot identity, process
name, map name and server behaviour. -/
theorem stubs_issue_no_request (api : RobotAPI) (r p m : String) (w w2 : World) :
    api.start_process r p m w = (true, api, []) ∧
    api.process_completed r w2 = (true, api, []) :=
  ⟨rfl, rfl⟩

/-- C9: the endpoint configuration and the connection flag are never
modified by any operation: every operation returns the instance state it
received, unchanged (for `navigate` on a well-formed pose, the returned
instance inside the `some` is unchanged), and the constructor is the only
place the `connected` flag is determined, as the probe's result. -/
theorem state_never_modified (api : RobotAPI) (r p m : String)
    (x y theta : Rat) (rest : List Rat) (w : World) :
    (api.check_connection w).2.1 = api ∧
    (api.position r w).2.1 = api ∧
    (∃ res tr, api.navigate r (x :: y :: theta :: rest) m w = some (res, api, tr)) ∧
    (api.start_process r p m w).2.1 = api ∧
    (api.stop r w).2.1 = api ∧
    (api.navigation_remaining_duration r w).2.1 = api ∧
    (api.navigation_completed r w).2.1 = api ∧
    (api.process_completed r w).2.1 = api ∧
    (api.battery_soc r w).2.1 = api ∧
    (RobotAPI.init p r m w).1 =
      ⟨p, r, m, ((⟨p, r, m, false⟩ : RobotAPI).check_connection w).1⟩ :=
  ⟨rfl, rfl, ⟨_, _, rfl⟩, rfl, rfl, rfl, rfl, rfl, rfl, rfl⟩

/-- C10: the robot-identity argument is unused: two invocations of any
operation that differ only in `robot_name` issue identical requests, return
identical results and identical states. -/
theorem robot_name_unused (api : RobotAPI) (r1 r2 p m : String)
    (pose : List Rat) (w : World) :
    api.position r1 w = api.position r2 w ∧
    api.navigate r1 pose m w = api.navigate r2 pose m w ∧
    api.start_process r1 p m w = api.start_process r2 p m w ∧
    api.stop r1 w = api.stop r2 w ∧
    api.navigation_remaining_duration r1 w =
      api.navigation_remaining_duration r2 w ∧
    api.navigation_completed r1 w = api.navigation_completed r2 w ∧
    api.process_completed r1 w = api.process_completed r2 w ∧
    api.battery_soc r1 w = api.battery_soc r2 w :=
  ⟨rfl, rfl, rfl, rfl, rfl, rfl, rfl, rfl⟩

end FleetAdapter
